import Mathlib

/-!
Verification development for a small tokio-based TCP server (src/server.rs and
the near-duplicate draft src/main.rs).  The interesting part of the program is
the connection-admission coordinator: an `AtomicUsize` counter of active
connections shared between an acceptor loop and spawned per-connection handler
tasks.

We embed the concurrent execution of `Server::run` (server.rs, lines 93-130)
and of `main` (main.rs, lines 36-90) as labelled transition systems.  Handler
tasks are interchangeable (their only shared effect is on the counter), so the
state tracks how many tasks are in each phase of the spawned closure rather
than a list of task identities.
-/

/-- `2 ^ 64`, the modulus of `usize` arithmetic (64-bit target assumed by the
source's atomics). -/
def usizeMod : Nat := 18446744073709551616

/-- The effect of `fetch_add(1, ..)` on the stored `usize` counter:
wrapping increment modulo `2 ^ 64`. -/
def usizeAdd1 (c : Nat) : Nat := (c + 1) % usizeMod

/-- Wrapping subtraction of 1 on a `usize` value, modulo `2 ^ 64`.  This is
both the effect of `fetch_sub(1, ..)` on the stored counter and the semantics
of the `- 1` applied to the returned old value (release-mode overflow
semantics). -/
def usizeSub1 (c : Nat) : Nat := (c + (usizeMod - 1)) % usizeMod

/-- `active_conns.fetch_sub(1, ..)` from server.rs line 118 / main.rs line 31:
returns the pair (new stored counter value, returned old value). -/
def fetchSubOp (c : Nat) : Nat × Nat := (usizeSub1 c, c)

/-- The count computed on the release path,
`active_conns.fetch_sub(1, ..) - 1`: wrapping `- 1` applied to the old value
returned by `fetchSubOp`. -/
def releaseReported (c : Nat) : Nat := usizeSub1 (fetchSubOp c).2

/-- The two counter operations appearing in the spawned handler task closure
of server.rs (lines 110-120). -/
inductive ConnOp where
  | fetchAdd
  | fetchSub
deriving DecidableEq, BEq

/-- The sequence of counter operations the spawned task of server.rs
(lines 110-120) actually executes, as a function of whether
`handle_connection` terminates abruptly (it panics when
`socket.peer_addr().unwrap()` at line 148 fails, and the task can also be
cancelled at the `sleep` await point).  The closure is
`fetch_add(1); handle_connection(..).await; fetch_sub(1)` with no guard or
finalizer, so an abrupt exit of `handle_connection` skips the `fetch_sub`. -/
def handlerTaskOps (abrupt : Bool) : List ConnOp :=
  ConnOp.fetchAdd :: (if abrupt then [] else [ConnOp.fetchSub])

/-- Where the acceptor control flow of `Server::run` (server.rs lines 99-129)
currently is: at the `while` condition check (line 99), inside the
`tokio::select!` (lines 100-127), or returned — `stoppedLimit` when the loop
condition `load < max_connections` failed (returns `Ok`), `stoppedCtrlC`
after the ctrl_c branch broke out of the loop (returns `Ok`), `stoppedErr`
after `result?` propagated an accept error (returns `Err`). -/
inductive AcceptorPhase where
  | atCheck
  | inSelect
  | stoppedLimit
  | stoppedCtrlC
  | stoppedErr
deriving DecidableEq

/-- Global state of `Server::run` together with all tasks it has spawned.
`nSpawned` counts tasks created by `tokio::spawn` that have not yet executed
their `fetch_add` (line 111); `nWorking` counts tasks between their
`fetch_add` and their `fetch_sub` (line 118); `nPanicked` counts tasks that
exited abruptly inside `handle_connection` (skipping the `fetch_sub`);
`nDone` counts tasks that ran the `fetch_sub` and finished.  `count` is the
stored value of the `active_conns: AtomicUsize`; `reported` is the count
printed by `Server::shutdown` (line 134), if it ran. -/
structure ServerState where
  nSpawned : Nat
  nWorking : Nat
  nPanicked : Nat
  nDone : Nat
  count : Nat
  acceptor : AcceptorPhase
  reported : Option Nat
deriving DecidableEq

/-- Initial state of `Server::run`: counter 0 (server.rs line 88), acceptor
about to evaluate the `while` condition, nothing spawned. -/
def initState : ServerState :=
  { nSpawned := 0, nWorking := 0, nPanicked := 0, nDone := 0, count := 0
    acceptor := .atCheck, reported := none }

/-- Labels of the atomic steps of the system: the acceptor's condition check
succeeding or failing, the three `select!` outcomes (successful accept + spawn,
accept error propagated by `?`, ctrl_c), and the three counter-relevant steps
of a spawned handler task (its `fetch_add`, its `fetch_sub`, or an abrupt exit
of `handle_connection` that skips the `fetch_sub`). -/
inductive StepLabel where
  | check
  | checkExit
  | acceptOk
  | acceptErr
  | ctrlC
  | handlerInc
  | handlerFinish
  | handlerPanic
deriving DecidableEq

/-- One interleaved atomic step of `Server::run` and its spawned tasks,
parametrised by `max = config.max_connections`.

* `check` / `checkExit`: the `while self.active_conns.load(..) <
  self.config.max_connections` test (line 99); on failure the loop exits and
  `run` returns `Ok(())`.
* `acceptOk`: the accept arm (lines 101-120) completes: the connection is
  accepted and a task is spawned; the loop returns to the condition check.
  The spawned task has not yet run.
* `acceptErr`: `listener.accept()` yields an error and `result?` (line 102)
  returns it from `run`.
* `ctrlC`: the ctrl_c arm (lines 123-126): `shutdown` loads and reports the
  current counter value and the loop breaks.
* `handlerInc`: a spawned task executes `fetch_add(1)` (line 111).
* `handlerFinish`: a working task executes `fetch_sub(1)` (line 118) and
  finishes.
* `handlerPanic`: a working task exits abruptly inside `handle_connection`
  (line 148 `unwrap`, or cancellation), skipping the `fetch_sub`.

Handler steps are enabled regardless of the acceptor's phase: spawned tasks
run concurrently with (and outlive) the acceptor loop. -/
inductive Step (max : Nat) : StepLabel → ServerState → ServerState → Prop
  | check (s : ServerState) (hph : s.acceptor = .atCheck) (hlt : s.count < max) :
      Step max .check s { s with acceptor := .inSelect }
  | checkExit (s : ServerState) (hph : s.acceptor = .atCheck) (hge : max ≤ s.count) :
      Step max .checkExit s { s with acceptor := .stoppedLimit }
  | acceptOk (s : ServerState) (hph : s.acceptor = .inSelect) :
      Step max .acceptOk s { s with nSpawned := s.nSpawned + 1, acceptor := .atCheck }
  | acceptErr (s : ServerState) (hph : s.acceptor = .inSelect) :
      Step max .acceptErr s { s with acceptor := .stoppedErr }
  | ctrlC (s : ServerState) (hph : s.acceptor = .inSelect) :
      Step max .ctrlC s { s with acceptor := .stoppedCtrlC, reported := some s.count }
  | handlerInc (s : ServerState) (hsp : 0 < s.nSpawned) :
      Step max .handlerInc s
        { s with nSpawned := s.nSpawned - 1, nWorking := s.nWorking + 1,
                 count := usizeAdd1 s.count }
  | handlerFinish (s : ServerState) (hwk : 0 < s.nWorking) :
      Step max .handlerFinish s
        { s with nWorking := s.nWorking - 1, nDone := s.nDone + 1,
                 count := usizeSub1 s.count }
  | handlerPanic (s : ServerState) (hwk : 0 < s.nWorking) :
      Step max .handlerPanic s
        { s with nWorking := s.nWorking - 1, nPanicked := s.nPanicked + 1 }

/-- Reflexive-transitive closure of `Step`: the states reachable from `s` by
some finite interleaving of acceptor and handler steps. -/
inductive Reaches (max : Nat) : ServerState → ServerState → Prop
  | refl (s : ServerState) : Reaches max s s
  | tail {s t u : ServerState} {l : StepLabel} :
      Reaches max s t → Step max l t u → Reaches max s u

/-- Total number of handler tasks ever spawned in a state. -/
def totalSpawned (s : ServerState) : Nat :=
  s.nSpawned + s.nWorking + s.nPanicked + s.nDone

/-- Number of live handler tasks: spawned and not yet terminated (neither
finished nor exited abruptly). -/
def liveHandlers (s : ServerState) : Nat :=
  s.nSpawned + s.nWorking

/-- Control position of the `main.rs` draft's acceptor (`main`, lines 43-86):
inside the `tokio::select!`, stopped normally after the ctrl_c break, or
stopped with an error after `result?` (line 47) propagated an accept
failure.  The draft's `loop` has no condition check at all. -/
inductive MainPhase where
  | inSelect
  | stoppedOk
  | stoppedErr
deriving DecidableEq

/-- Global state of the `main.rs` draft: counter phases of its spawned
`handle_connection` tasks (lines 11-34: `fetch_add(1)`; sleep;
`fetch_sub(1)`; `Ok`), the stored `AtomicUsize`, the acceptor position, and
the final count printed on ctrl_c (line 80-81), if any. -/
structure MainState where
  nSpawned : Nat
  nWorking : Nat
  nDone : Nat
  count : Nat
  phase : MainPhase
  reported : Option Nat
deriving DecidableEq

/-- Initial state of the `main.rs` draft: counter 0 (line 39), acceptor in
the select. -/
def mainInit : MainState :=
  { nSpawned := 0, nWorking := 0, nDone := 0, count := 0
    phase := .inSelect, reported := none }

/-- Step labels for the `main.rs` draft. -/
inductive MainLabel where
  | acceptOk
  | acceptErr
  | ctrlC
  | handlerInc
  | handlerDec
deriving DecidableEq

/-- One interleaved atomic step of the `main.rs` draft.  Note that `acceptOk`
carries no condition on `count`: the accept arm (lines 46-76) spawns a
handler for every accepted connection with no capacity comparison anywhere. -/
inductive MainStep : MainLabel → MainState → MainState → Prop
  | acceptOk (s : MainState) (hph : s.phase = .inSelect) :
      MainStep .acceptOk s { s with nSpawned := s.nSpawned + 1 }
  | acceptErr (s : MainState) (hph : s.phase = .inSelect) :
      MainStep .acceptErr s { s with phase := .stoppedErr }
  | ctrlC (s : MainState) (hph : s.phase = .inSelect) :
      MainStep .ctrlC s { s with phase := .stoppedOk, reported := some s.count }
  | handlerInc (s : MainState) (hsp : 0 < s.nSpawned) :
      MainStep .handlerInc s
        { s with nSpawned := s.nSpawned - 1, nWorking := s.nWorking + 1,
                 count := usizeAdd1 s.count }
  | handlerDec (s : MainState) (hwk : 0 < s.nWorking) :
      MainStep .handlerDec s
        { s with nWorking := s.nWorking - 1, nDone := s.nDone + 1,
                 count := usizeSub1 s.count }

/-- Reflexive-transitive closure of `MainStep`. -/
inductive MainReaches : MainState → MainState → Prop
  | refl (s : MainState) : MainReaches s s
  | tail {s t u : MainState} {l : MainLabel} :
      MainReaches s t → MainStep l t u → MainReaches s u

/-- Key invariant of the server model: the stored counter is always the
number of tasks past their `fetch_add` and short of their `fetch_sub`
(working or abruptly exited), modulo `2 ^ 64`. -/
lemma reach_count {max : Nat} {s : ServerState}
    (h : Reaches max initState s) :
    s.count = (s.nWorking + s.nPanicked) % usizeMod := by
  induction h with
  | refl => rfl
  | tail hr hs ih =>
    cases hs with
    | check t hph hlt => exact ih
    | checkExit t hph hge => exact ih
    | acceptOk t hph => exact ih
    | acceptErr t hph => exact ih
    | ctrlC t hph => exact ih
    | handlerInc t hsp =>
      dsimp only
      simp only [usizeAdd1, usizeMod] at ih ⊢
      omega
    | handlerFinish t hwk =>
      dsimp only
      simp only [usizeSub1, usizeMod] at ih ⊢
      omega
    | handlerPanic t hwk =>
      dsimp only
      simp only [usizeMod] at ih ⊢
      omega

/-- Once the acceptor has stopped via the ctrl_c branch, every further step
keeps it stopped and spawns no new handler task. -/
lemma step_stopped_preserve {max : Nat} {l : StepLabel} {s u : ServerState}
    (hs : Step max l s u) (h : s.acceptor = .stoppedCtrlC) :
    u.acceptor = .stoppedCtrlC ∧ totalSpawned u = totalSpawned s := by
  cases hs <;> simp_all [totalSpawned] <;> omega

/-- Closure of `step_stopped_preserve`: from a ctrl_c-stopped state, every
reachable state is still stopped and has the same total number of spawned
handler tasks. -/
lemma reach_stopped_preserve {max : Nat} {s t : ServerState}
    (hr : Reaches max s t) (h : s.acceptor = .stoppedCtrlC) :
    t.acceptor = .stoppedCtrlC ∧ totalSpawned t = totalSpawned s := by
  induction hr with
  | refl => exact ⟨h, rfl⟩
  | tail hr hs ih =>
    obtain ⟨h1, h2⟩ := ih
    obtain ⟨h3, h4⟩ := step_stopped_preserve hs h1
    exact ⟨h3, h4.trans h2⟩

/-- A state with one abruptly-exited handler and a leaked count of 1 is
reachable (accept, `fetch_add`, abrupt exit of `handle_connection`). -/
lemma reach_leak : Reaches 1 initState
    { nSpawned := 0, nWorking := 0, nPanicked := 1, nDone := 0, count := 1,
      acceptor := .atCheck, reported := none } :=
  Reaches.tail (Reaches.tail (Reaches.tail (Reaches.tail (Reaches.refl _)
    (Step.check _ rfl (by decide)))
    (Step.acceptOk _ rfl))
    (Step.handlerInc _ (by decide)))
    (Step.handlerPanic _ (by decide))

/-- Claim C7 (amended): at every reachable point, the shared counter equals,
modulo `2 ^ 64`, the number of handler tasks that have executed their
`fetch_add` and not their `fetch_sub` (the working tasks plus the
abruptly-exited ones) — not the number of currently-live handler tasks. -/
theorem relC7 (max : Nat) (s : ServerState) (h : Reaches max initState s) :
    s.count = (s.nWorking + s.nPanicked) % usizeMod :=
  reach_count h

/-- Claim C7 witness: instantiation of `relC7` at the initial state. -/
theorem relC7_witness :
    initState.count = (initState.nWorking + initState.nPanicked) % usizeMod :=
  relC7 1 initState (Reaches.refl initState)

/-- Claim C7 counterexample: after an accepted connection is handed to
`tokio::spawn` but before the spawned task runs its `fetch_add`, the task is
live but the counter is still 0, so the counter does not equal the number of
currently-live handler tasks. -/
theorem relC7_cex :
    Reaches 1 initState
      { nSpawned := 1, nWorking := 0, nPanicked := 0, nDone := 0, count := 0,
        acceptor := .atCheck, reported := none } ∧
    ¬ (({ nSpawned := 1, nWorking := 0, nPanicked := 0, nDone := 0, count := 0,
          acceptor := .atCheck, reported := none } : ServerState).count =
        liveHandlers
          { nSpawned := 1, nWorking := 0, nPanicked := 0, nDone := 0, count := 0,
            acceptor := .atCheck, reported := none }) :=
  ⟨Reaches.tail (Reaches.tail (Reaches.refl _)
      (Step.check _ rfl (by decide)))
      (Step.acceptOk _ rfl),
   by decide⟩

/-- Claim C1 (amended): the counter never goes below 0 — concretely, every
`fetch_sub` on the release path executes at a strictly positive counter value
(given fewer than `2 ^ 64` outstanding increments), so the decrement never
wraps — but the counter is not bounded by `max_connections`
(see `relC1_cex`). -/
theorem relC1 (max : Nat) (s u : ServerState)
    (hr : Reaches max initState s)
    (hb : s.nWorking + s.nPanicked < usizeMod)
    (hs : Step max .handlerFinish s u) :
    0 < s.count := by
  have hc := reach_count hr
  cases hs with
  | handlerFinish _ hwk =>
    rw [hc, Nat.mod_eq_of_lt hb]
    omega

/-- Claim C1 witness: a release step taken from a reachable state with one
working handler finds the counter at 1 > 0. -/
theorem relC1_witness :
    0 < (({ nSpawned := 0, nWorking := 1, nPanicked := 0, nDone := 0, count := 1,
            acceptor := .atCheck, reported := none } : ServerState)).count :=
  relC1 1
    { nSpawned := 0, nWorking := 1, nPanicked := 0, nDone := 0, count := 1,
      acceptor := .atCheck, reported := none }
    { nSpawned := 0, nWorking := 0, nPanicked := 0, nDone := 1, count := 0,
      acceptor := .atCheck, reported := none }
    (Reaches.tail (Reaches.tail (Reaches.tail (Reaches.refl _)
      (Step.check _ rfl (by decide)))
      (Step.acceptOk _ rfl))
      (Step.handlerInc _ (by decide)))
    (by decide)
    (Step.handlerFinish _ (by decide))

/-- Claim C1 counterexample: with `max_connections = 1`, the schedule
check, accept, check, accept, `fetch_add`, `fetch_add` drives the counter to
2, exceeding the maximum — the loop-condition load and the increments in the
spawned tasks are separate steps, so both accepted connections increment. -/
theorem relC1_cex :
    Reaches 1 initState
      { nSpawned := 0, nWorking := 2, nPanicked := 0, nDone := 0, count := 2,
        acceptor := .atCheck, reported := none } ∧
    ¬ (({ nSpawned := 0, nWorking := 2, nPanicked := 0, nDone := 0, count := 2,
          acceptor := .atCheck, reported := none } : ServerState).count ≤ 1) :=
  ⟨Reaches.tail (Reaches.tail (Reaches.tail (Reaches.tail (Reaches.tail
      (Reaches.tail (Reaches.refl _)
      (Step.check _ rfl (by decide)))
      (Step.acceptOk _ rfl))
      (Step.check _ rfl (by decide)))
      (Step.acceptOk _ rfl))
      (Step.handlerInc _ (by decide)))
      (Step.handlerInc _ (by decide)),
   by decide⟩

/-- Claim C8: after any number M of handler tasks have each run to
completion (one `fetch_add` matched by one `fetch_sub`), with no task spawned,
working, or abruptly exited, the counter is back to 0. -/
theorem relC8 (max M : Nat) (s : ServerState)
    (hr : Reaches max initState s)
    (h1 : s.nSpawned = 0) (h2 : s.nWorking = 0) (h3 : s.nPanicked = 0)
    (h4 : s.nDone = M) :
    s.count = 0 := by
  have hc := reach_count hr
  rw [hc, h2, h3]
  decide

/-- Claim C8 witness: one full connect-process-disconnect cycle brings the
counter back to 0. -/
theorem relC8_witness :
    ({ nSpawned := 0, nWorking := 0, nPanicked := 0, nDone := 1, count := 0,
       acceptor := .atCheck, reported := none } : ServerState).count = 0 :=
  relC8 1 1
    { nSpawned := 0, nWorking := 0, nPanicked := 0, nDone := 1, count := 0,
      acceptor := .atCheck, reported := none }
    (Reaches.tail (Reaches.tail (Reaches.tail (Reaches.tail (Reaches.refl _)
      (Step.check _ rfl (by decide)))
      (Step.acceptOk _ rfl))
      (Step.handlerInc _ (by decide)))
      (Step.handlerFinish _ (by decide)))
    rfl rfl rfl rfl

/-- Claim C2 (amended): admission is not one atomic step but two separate
atomic operations.  The acceptor's `load`-and-compare proceeds only when the
loaded count is below the maximum, but the `fetch_add` in the spawned task is
unconditional: it is enabled for a spawned task at every counter value, with
no comparison against the maximum. -/
theorem relC2 (max : Nat) (s u : ServerState) (hc : Step max .check s u) :
    s.count < max ∧
    ∀ t : ServerState, 0 < t.nSpawned →
      Step max .handlerInc t
        { t with nSpawned := t.nSpawned - 1, nWorking := t.nWorking + 1,
                 count := usizeAdd1 t.count } := by
  cases hc with
  | check _ hph hlt => exact ⟨hlt, fun t ht => Step.handlerInc t ht⟩

/-- Claim C2 witness: instantiation of `relC2` at the initial condition
check with `max_connections = 1`. -/
theorem relC2_witness :
    initState.count < 1 ∧
    ∀ t : ServerState, 0 < t.nSpawned →
      Step 1 .handlerInc t
        { t with nSpawned := t.nSpawned - 1, nWorking := t.nWorking + 1,
                 count := usizeAdd1 t.count } :=
  relC2 1 initState { initState with acceptor := .inSelect }
    (Step.check initState rfl (by decide))

/-- Claim C2 counterexample: with `max_connections = 1` a reachable state has
one working and one spawned task with the counter already at the maximum, and
the spawned task's `fetch_add` still executes — the compare and the increment
are not a single atomic step, so the increment runs even though the current
count is not below the maximum. -/
theorem relC2_cex :
    Reaches 1 initState
      { nSpawned := 1, nWorking := 1, nPanicked := 0, nDone := 0, count := 1,
        acceptor := .atCheck, reported := none } ∧
    Step 1 .handlerInc
      { nSpawned := 1, nWorking := 1, nPanicked := 0, nDone := 0, count := 1,
        acceptor := .atCheck, reported := none }
      { nSpawned := 0, nWorking := 2, nPanicked := 0, nDone := 0, count := 2,
        acceptor := .atCheck, reported := none } ∧
    ¬ (({ nSpawned := 1, nWorking := 1, nPanicked := 0, nDone := 0, count := 1,
          acceptor := .atCheck, reported := none } : ServerState).count < 1) :=
  ⟨Reaches.tail (Reaches.tail (Reaches.tail (Reaches.tail (Reaches.tail
      (Reaches.refl _)
      (Step.check _ rfl (by decide)))
      (Step.acceptOk _ rfl))
      (Step.check _ rfl (by decide)))
      (Step.acceptOk _ rfl))
      (Step.handlerInc _ (by decide)),
   Step.handlerInc _ (by decide),
   by decide⟩

/-- Claim C3 (amended): the spawned task performs its `fetch_add` exactly
once on every path, but performs the `fetch_sub` exactly once only when
`handle_connection` returns normally; on an abrupt exit the `fetch_sub` is
skipped (there is no guard or finalizer), and a reachable server state shows
the resulting leaked count. -/
theorem relC3 (abrupt : Bool) :
    (handlerTaskOps abrupt).count ConnOp.fetchAdd = 1 ∧
    (handlerTaskOps abrupt).count ConnOp.fetchSub =
      (if abrupt then 0 else 1) ∧
    Reaches 1 initState
      { nSpawned := 0, nWorking := 0, nPanicked := 1, nDone := 0, count := 1,
        acceptor := .atCheck, reported := none } := by
  refine ⟨?_, ?_, reach_leak⟩ <;> cases abrupt <;> decide

/-- Claim C3 counterexample: the release operation is present on the normal
path but absent from the abrupt-exit path of the spawned task, so release is
not called on every exit path. -/
theorem relC3_cex :
    (handlerTaskOps false).count ConnOp.fetchSub = 1 ∧
    (handlerTaskOps true).count ConnOp.fetchSub = 0 ∧
    (handlerTaskOps true).count ConnOp.fetchAdd = 1 := by
  decide

/-- Claim C4 (amended): a step that moves the acceptor from running (at the
loop condition or in the select) to stopped is either the ctrl_c trigger, the
loop condition finding the counter at or above `max_connections`, or an
accept failure propagated by `?` — handler outcomes alone never stop the
acceptor, but the latter two non-trigger causes do. -/
theorem relC4 (max : Nat) (l : StepLabel) (s u : ServerState)
    (hs : Step max l s u)
    (hrun : s.acceptor = .atCheck ∨ s.acceptor = .inSelect)
    (hstop : ¬ (u.acceptor = .atCheck ∨ u.acceptor = .inSelect)) :
    l = .ctrlC ∨ l = .checkExit ∨ l = .acceptErr := by
  cases hs <;> simp_all

/-- Claim C4 witness: instantiation of `relC4` at the ctrl_c step taken from
the select of an idle server. -/
theorem relC4_witness :
    StepLabel.ctrlC = .ctrlC ∨ StepLabel.ctrlC = .checkExit ∨
      StepLabel.ctrlC = .acceptErr :=
  relC4 1 .ctrlC { initState with acceptor := .inSelect }
    { initState with acceptor := .stoppedCtrlC, reported := some 0 }
    (Step.ctrlC _ rfl) (Or.inr rfl) (by decide)

/-- Claim C4 counterexample: with `max_connections = 1`, after one admitted
connection increments the counter, the loop-condition check fails and the
acceptor stops and returns `Ok` — the server stops without the shutdown
trigger ever being observed (`reported = none`). -/
theorem relC4_cex :
    Reaches 1 initState
      { nSpawned := 0, nWorking := 1, nPanicked := 0, nDone := 0, count := 1,
        acceptor := .stoppedLimit, reported := none } ∧
    ({ nSpawned := 0, nWorking := 1, nPanicked := 0, nDone := 0, count := 1,
       acceptor := .stoppedLimit, reported := none } : ServerState).acceptor ≠
      .stoppedCtrlC ∧
    ({ nSpawned := 0, nWorking := 1, nPanicked := 0, nDone := 0, count := 1,
       acceptor := .stoppedLimit, reported := none } : ServerState).acceptor ≠
      .atCheck ∧
    ({ nSpawned := 0, nWorking := 1, nPanicked := 0, nDone := 0, count := 1,
       acceptor := .stoppedLimit, reported := none } : ServerState).acceptor ≠
      .inSelect :=
  ⟨Reaches.tail (Reaches.tail (Reaches.tail (Reaches.tail (Reaches.refl _)
      (Step.check _ rfl (by decide)))
      (Step.acceptOk _ rfl))
      (Step.handlerInc _ (by decide)))
      (Step.checkExit _ rfl (by decide)),
   by decide, by decide, by decide⟩

/-- Claim C5 (amended): a single accept failure is fatal, not recoverable:
in `Server::run` the `?` on the accept result returns the error from `run`,
and in the `main.rs` draft the same `?` returns the error from `main` — in
both drafts the acceptor stops with an error instead of continuing the
loop. -/
theorem relC5 (max : Nat) (s u : ServerState) (t v : MainState)
    (h1 : Step max .acceptErr s u) (h2 : MainStep .acceptErr t v) :
    u.acceptor = .stoppedErr ∧ v.phase = .stoppedErr := by
  cases h1
  cases h2
  exact ⟨rfl, rfl⟩

/-- Claim C5 witness: instantiation of `relC5` at accept-failure steps of
both drafts from their idle select states. -/
theorem relC5_witness :
    ({ nSpawned := 0, nWorking := 0, nPanicked := 0, nDone := 0, count := 0,
       acceptor := .stoppedErr, reported := none } : ServerState).acceptor =
      .stoppedErr ∧
    ({ nSpawned := 0, nWorking := 0, nDone := 0, count := 0,
       phase := .stoppedErr, reported := none } : MainState).phase =
      .stoppedErr :=
  relC5 1
    { nSpawned := 0, nWorking := 0, nPanicked := 0, nDone := 0, count := 0,
      acceptor := .inSelect, reported := none }
    { nSpawned := 0, nWorking := 0, nPanicked := 0, nDone := 0, count := 0,
      acceptor := .stoppedErr, reported := none }
    mainInit
    { nSpawned := 0, nWorking := 0, nDone := 0, count := 0,
      phase := .stoppedErr, reported := none }
    (Step.acceptErr _ rfl) (MainStep.acceptErr _ rfl)

/-- Claim C5 counterexample: from a reachable select state, the
accept-failure step leaves the acceptor stopped with an error, not back in
the loop — the failure is not contained. -/
theorem relC5_cex :
    Reaches 1 initState
      { nSpawned := 0, nWorking := 0, nPanicked := 0, nDone := 0, count := 0,
        acceptor := .inSelect, reported := none } ∧
    Step 1 .acceptErr
      { nSpawned := 0, nWorking := 0, nPanicked := 0, nDone := 0, count := 0,
        acceptor := .inSelect, reported := none }
      { nSpawned := 0, nWorking := 0, nPanicked := 0, nDone := 0, count := 0,
        acceptor := .stoppedErr, reported := none } ∧
    ({ nSpawned := 0, nWorking := 0, nPanicked := 0, nDone := 0, count := 0,
       acceptor := .stoppedErr, reported := none } : ServerState).acceptor ≠
      .atCheck ∧
    ({ nSpawned := 0, nWorking := 0, nPanicked := 0, nDone := 0, count := 0,
       acceptor := .stoppedErr, reported := none } : ServerState).acceptor ≠
      .inSelect :=
  ⟨Reaches.tail (Reaches.refl _) (Step.check _ rfl (by decide)),
   Step.acceptErr _ rfl, by decide, by decide⟩

/-- Claim C6 (amended): when the ctrl_c trigger is observed, the acceptor
stops at once and no handler task is ever spawned afterwards; the count it
reports is the counter's value at that moment — the number of handlers past
their `fetch_add` and short of their `fetch_sub` (working or abruptly
exited), modulo `2 ^ 64` — which is not in general the number of in-flight
connections (see `relC6_cex`). -/
theorem relC6 (max : Nat) (s u t : ServerState)
    (hr : Reaches max initState s) (hc : Step max .ctrlC s u)
    (ht : Reaches max u t) :
    u.reported = some ((s.nWorking + s.nPanicked) % usizeMod) ∧
    u.acceptor = .stoppedCtrlC ∧
    t.acceptor = .stoppedCtrlC ∧
    totalSpawned t = totalSpawned u := by
  have hcount := reach_count hr
  cases hc with
  | ctrlC _ hph =>
    refine ⟨?_, rfl, ?_, ?_⟩
    · dsimp only
      rw [hcount]
    · exact (reach_stopped_preserve ht rfl).1
    · exact (reach_stopped_preserve ht rfl).2

/-- Claim C6 witness: instantiation of `relC6` at the trigger observed by an
idle server, with no step taken afterwards. -/
theorem relC6_witness :
    ({ nSpawned := 0, nWorking := 0, nPanicked := 0, nDone := 0, count := 0,
       acceptor := .stoppedCtrlC, reported := some 0 } : ServerState).reported =
      some ((0 + 0) % usizeMod) ∧
    ({ nSpawned := 0, nWorking := 0, nPanicked := 0, nDone := 0, count := 0,
       acceptor := .stoppedCtrlC, reported := some 0 } : ServerState).acceptor =
      .stoppedCtrlC ∧
    ({ nSpawned := 0, nWorking := 0, nPanicked := 0, nDone := 0, count := 0,
       acceptor := .stoppedCtrlC, reported := some 0 } : ServerState).acceptor =
      .stoppedCtrlC ∧
    totalSpawned
        { nSpawned := 0, nWorking := 0, nPanicked := 0, nDone := 0, count := 0,
          acceptor := .stoppedCtrlC, reported := some 0 } =
      totalSpawned
        { nSpawned := 0, nWorking := 0, nPanicked := 0, nDone := 0, count := 0,
          acceptor := .stoppedCtrlC, reported := some 0 } :=
  relC6 1
    { nSpawned := 0, nWorking := 0, nPanicked := 0, nDone := 0, count := 0,
      acceptor := .inSelect, reported := none }
    { nSpawned := 0, nWorking := 0, nPanicked := 0, nDone := 0, count := 0,
      acceptor := .stoppedCtrlC, reported := some 0 }
    { nSpawned := 0, nWorking := 0, nPanicked := 0, nDone := 0, count := 0,
      acceptor := .stoppedCtrlC, reported := some 0 }
    (Reaches.tail (Reaches.refl _) (Step.check _ rfl (by decide)))
    (Step.ctrlC _ rfl)
    (Reaches.refl _)

/-- Claim C6 counterexample: the trigger fires while one connection is in
flight (accepted and spawned, its `fetch_add` not yet executed), but the
count reported at shutdown is 0, not 1. -/
theorem relC6_cex :
    Reaches 2 initState
      { nSpawned := 1, nWorking := 0, nPanicked := 0, nDone := 0, count := 0,
        acceptor := .inSelect, reported := none } ∧
    Step 2 .ctrlC
      { nSpawned := 1, nWorking := 0, nPanicked := 0, nDone := 0, count := 0,
        acceptor := .inSelect, reported := none }
      { nSpawned := 1, nWorking := 0, nPanicked := 0, nDone := 0, count := 0,
        acceptor := .stoppedCtrlC, reported := some 0 } ∧
    liveHandlers
        { nSpawned := 1, nWorking := 0, nPanicked := 0, nDone := 0, count := 0,
          acceptor := .inSelect, reported := none } = 1 ∧
    ({ nSpawned := 1, nWorking := 0, nPanicked := 0, nDone := 0, count := 0,
       acceptor := .stoppedCtrlC, reported := some 0 } : ServerState).reported ≠
      some 1 :=
  ⟨Reaches.tail (Reaches.tail (Reaches.tail (Reaches.refl _)
      (Step.check _ rfl (by decide)))
      (Step.acceptOk _ rfl))
      (Step.check _ rfl (by decide)),
   Step.ctrlC _ rfl, by decide, by decide⟩

/-- Claim C9: in the `main.rs` draft, the accept arm spawns a handler for
every accepted connection unconditionally — the spawn step is enabled in
every select state whatever the counter's value, and for every `n` there is a
reachable state with counter `n % 2 ^ 64` in which the next accepted
connection is still handed to a spawned handler; no comparison against a
maximum exists anywhere on the accept path. -/
theorem relC9 (s : MainState) (n : Nat) (hph : s.phase = .inSelect) :
    MainStep .acceptOk s { s with nSpawned := s.nSpawned + 1 } ∧
    ∃ t : MainState, MainReaches mainInit t ∧ t.count = n % usizeMod ∧
      t.phase = .inSelect ∧
      MainStep .acceptOk t { t with nSpawned := t.nSpawned + 1 } := by
  refine ⟨MainStep.acceptOk s hph, ?_⟩
  induction n with
  | zero =>
    exact ⟨mainInit, MainReaches.refl _, rfl, rfl, MainStep.acceptOk _ rfl⟩
  | succ n ih =>
    obtain ⟨t, hre, hcn, hp, _⟩ := ih
    refine ⟨{ t with nWorking := t.nWorking + 1, count := usizeAdd1 t.count },
      ?_, ?_, hp, MainStep.acceptOk _ hp⟩
    · exact MainReaches.tail (MainReaches.tail hre (MainStep.acceptOk t hp))
        (MainStep.handlerInc _ (Nat.succ_pos _))
    · dsimp only
      rw [hcn]
      simp only [usizeAdd1, usizeMod]
      omega

/-- Claim C9 witness: instantiation of `relC9` at the draft's initial state
with `n = 3`. -/
theorem relC9_witness :
    MainStep .acceptOk mainInit
      { mainInit with nSpawned := mainInit.nSpawned + 1 } ∧
    ∃ t : MainState, MainReaches mainInit t ∧ t.count = 3 % usizeMod ∧
      t.phase = .inSelect ∧
      MainStep .acceptOk t { t with nSpawned := t.nSpawned + 1 } :=
  relC9 mainInit 3 rfl

/-- Claim C10: the counter is a wrapping unsigned 64-bit quantity.  If the
release path runs at counter value 0, the stored counter
(`fetch_sub` wraps) and the count computed as `fetch_sub(1) - 1` both become
`2 ^ 64 - 1` — neither negative nor saturated at 0. -/
theorem relC10 :
    (fetchSubOp 0).1 = 2 ^ 64 - 1 ∧
    releaseReported 0 = 2 ^ 64 - 1 ∧
    (2 ^ 64 - 1 : Nat) ≠ 0 := by
  refine ⟨by decide, by decide, by decide⟩
